import Mathlib

/-!
Verification of the tow-truck dispatch bot (worker.py, bot_polling.py, api.py).

The Python sources are shallowly embedded as executable Lean definitions:

* strings are Lean `String`s, manipulated through `List Char` helpers so that
  every operation reduces in the kernel;
* Python `float` timestamps from `time.time()` are idealized as integers
  (every property stated here involves whole-second offsets only);
* Python `float(...)` literal parsing is modelled exactly on the decimal
  grammar (`sign? (digits [. digits?] | . digits) (e sign? digits)?` with
  underscores allowed between digits, plus `inf`/`infinity`/`nan`), with the
  parsed value kept as an exact canonical decimal `num / 10^scale`;
  binary float64 rounding and the scientific-notation repr thresholds are
  abstracted (all concrete inputs used below are exactly representable);
* only ASCII whitespace/digits are modelled (Python also accepts some
  Unicode forms; none appear in any statement below);
* external effects (Telegram sends, the HTTP transport, HMAC-SHA256, JSON
  decoding of the `user` blob, local-timezone date rendering) are modelled
  as explicit parameters: a `Bool` for "the send raised", abstract functions
  for the crypto/JSON/clock primitives.

Each claim theorem is marked with its claim id.
-/

namespace TowBot

/-! ## Character and string helpers (Python semantics) -/

/-- ASCII whitespace recognized by Python's `str.strip()` / `float()` / `int()`. -/
def isPyWs (c : Char) : Bool :=
  c = ' ' || c = '\t' || c = '\n' || c = '\r' || c = '\x0b' || c = '\x0c'

/-- `str.strip()` on a character list. -/
def stripList (l : List Char) : List Char :=
  ((l.dropWhile isPyWs).reverse.dropWhile isPyWs).reverse

/-- `str.strip()`. -/
def pyStrip (s : String) : String := ⟨stripList s.data⟩

/-- Numeric value of an ASCII digit. -/
def digitVal (c : Char) : ℕ := c.toNat - '0'.toNat

/-- Split on every occurrence of a character (Python `str.split(sep)`). -/
def splitOnCharAux (c : Char) : List Char → List Char → List (List Char)
  | [], acc => [acc.reverse]
  | x :: xs, acc =>
    if x = c then acc.reverse :: splitOnCharAux c xs []
    else splitOnCharAux c xs (x :: acc)

/-- Python `s.split(sep)` for a one-character separator. -/
def splitOnChar (c : Char) (l : List Char) : List (List Char) :=
  splitOnCharAux c l []

/-- Python `str.split()` with no argument: split on whitespace runs, no empties. -/
def splitWsAux : List Char → List Char → List (List Char)
  | [], acc => if acc.isEmpty then [] else [acc.reverse]
  | x :: xs, acc =>
    if isPyWs x then
      if acc.isEmpty then splitWsAux xs [] else acc.reverse :: splitWsAux xs []
    else splitWsAux xs (x :: acc)

/-- Python `str.split()` on a `String`. -/
def pySplitWs (s : String) : List String :=
  (splitWsAux s.data []).map String.mk

/-- Python truthiness of an optional string (`None` and `""` are falsy). -/
def pyTruthy : Option String → Bool
  | none => false
  | some s => s ≠ ""

/-- Python `a or b` for two optional strings (first truthy operand wins). -/
def pyOr (a b : Option String) : Option String :=
  match a with
  | some s => if s = "" then b else some s
  | none => b

/-- `_clean` (worker.py line 88, bot_polling.py line 74):
strip the string, em-dash placeholder when absent or blank. -/
def pyClean (s : Option String) : String :=
  let t := pyStrip (s.getD "")
  if t = "" then "—" else t

/-! ## Python `int(...)` on strings -/

/-- Digit run with single underscores allowed between digits; consumes as much
as possible, returning value, digit count and leftover. -/
def digitsULoop : ℕ → ℕ → List Char → ℕ × ℕ × List Char
  | acc, cnt, [] => (acc, cnt, [])
  | acc, cnt, '_' :: d :: rest =>
    if d.isDigit then digitsULoop (acc * 10 + digitVal d) (cnt + 1) rest
    else (acc, cnt, '_' :: d :: rest)
  | acc, cnt, ['_'] => (acc, cnt, ['_'])
  | acc, cnt, c :: rest =>
    if c.isDigit then digitsULoop (acc * 10 + digitVal c) (cnt + 1) rest
    else (acc, cnt, c :: rest)

/-- Leading digit run (must start with a digit; `_5` consumes nothing). -/
def digitsU : List Char → ℕ × ℕ × List Char
  | [] => (0, 0, [])
  | c :: rest =>
    if c.isDigit then digitsULoop (digitVal c) 1 rest else (0, 0, c :: rest)

/-- Python `int(s)` for base 10: optional surrounding whitespace, optional
sign, then digits (underscores allowed between digits), nothing else. -/
def pyIntParseList (l : List Char) : Option ℤ :=
  let core : List Char → Bool → Option ℤ := fun cs neg =>
    match digitsU cs with
    | (v, cnt, rest) =>
      if cnt = 0 ∨ ¬ rest.isEmpty then none
      else some (if neg then -(v : ℤ) else (v : ℤ))
  match stripList l with
  | '+' :: rest => core rest false
  | '-' :: rest => core rest true
  | rest => core rest false

/-- Python `int(s)`. -/
def pyIntParse (s : String) : Option ℤ := pyIntParseList s.data

/-! ## Python `float(...)` on strings, as exact decimals -/

/-- Exact decimal `num / 10^scale` in canonical form (no trailing zero
digits in the fractional part; `0` has scale `0`). -/
structure DecFloat where
  num : ℤ
  scale : ℕ
deriving DecidableEq, Repr

/-- `10^k` as an integer. -/
def pow10 : ℕ → ℤ
  | 0 => 1
  | n + 1 => 10 * pow10 n

/-- Strip trailing zeros of `n / 10^p` (fuelled; `p + 1` fuel suffices). -/
def canonAux : ℕ → ℤ → ℕ → ℤ × ℕ
  | 0, n, p => (n, p)
  | fuel + 1, n, p =>
    if n = 0 then (0, 0)
    else
      match p with
      | 0 => (n, 0)
      | q + 1 => if n % 10 = 0 then canonAux fuel (n / 10) q else (n, q + 1)

/-- Canonical decimal for `n / 10^p`. -/
def mkDecFloat (n : ℤ) (p : ℕ) : DecFloat :=
  let r := canonAux (p + 1) n p
  ⟨r.1, r.2⟩

/-- A Python float value as produced by `float(str)`. -/
inductive PyFloat where
  | finite (d : DecFloat)
  | infty (neg : Bool)
  | nan
deriving DecidableEq, Repr

/-- Case-insensitive ASCII comparison of a char list with a lowercase word. -/
def lowerEqList (l : List Char) (w : List Char) : Bool :=
  l.map Char.toLower == w

/-- Parse the numeric core (after sign): mantissa, optional fraction,
optional exponent; whole input must be consumed. -/
def parseFloatNum (l : List Char) (neg : Bool) : Option PyFloat :=
  let (iv, ic, r1) := digitsU l
  let withFrac : ℕ × ℕ × List Char :=
    match r1 with
    | '.' :: r2 =>
      let (fv, fc, r3) := digitsU r2
      (fv, fc, r3)
    | _ => (0, 0, r1)
  match withFrac with
  | (fv, fc, r3) =>
    let hadDot : Bool := match r1 with | '.' :: _ => true | _ => false
    if ic + fc = 0 then none
    else
      let m : ℕ := iv * (pow10 fc).toNat + fv
      let finish : ℤ → Option PyFloat := fun e =>
        let t : ℤ := e - (fc : ℤ)
        let sgn : ℤ := if neg then -1 else 1
        if 0 ≤ t then some (.finite (mkDecFloat (sgn * (m : ℤ) * pow10 t.toNat) 0))
        else some (.finite (mkDecFloat (sgn * (m : ℤ)) (-t).toNat))
      let r3' := if hadDot then r3 else r1
      match r3' with
      | [] => finish 0
      | e :: r4 =>
        if e = 'e' ∨ e = 'E' then
          let expPart : List Char × Bool :=
            match r4 with
            | '+' :: r5 => (r5, false)
            | '-' :: r5 => (r5, true)
            | r5 => (r5, false)
          match expPart with
          | (r5, eneg) =>
            let (ev, ec, r6) := digitsU r5
            if ec = 0 ∨ ¬ r6.isEmpty then none
            else finish (if eneg then -(ev : ℤ) else (ev : ℤ))
        else none

/-- Python `float(s)`: whitespace-stripped, optional sign, then either
`inf`/`infinity`/`nan` (case-insensitive) or a decimal literal. -/
def pyFloatParseList (l : List Char) : Option PyFloat :=
  let core : List Char → Bool → Option PyFloat := fun cs neg =>
    if lowerEqList cs "inf".data || lowerEqList cs "infinity".data then
      some (.infty neg)
    else if lowerEqList cs "nan".data then some .nan
    else parseFloatNum cs neg
  match stripList l with
  | '+' :: rest => core rest false
  | '-' :: rest => core rest true
  | rest => core rest false

/-- Python `float(s)` on a `String`. -/
def pyFloatParse (s : String) : Option PyFloat := pyFloatParseList s.data

/-! ## `repr` of a Python float (as interpolated by an f-string) -/

/-- Decimal digits of a natural number, most significant first. -/
def natDigitsAux : ℕ → ℕ → List Char
  | 0, _ => []
  | fuel + 1, n =>
    if n = 0 then []
    else natDigitsAux fuel (n / 10) ++ [Char.ofNat ('0'.toNat + n % 10)]

/-- Decimal digit string of a natural number. -/
def natDigits (n : ℕ) : List Char :=
  if n = 0 then ['0'] else natDigitsAux (n + 1) n

/-- Positional decimal rendering of `n / 10^k` (`n : ℕ`), Python style:
always at least one digit on each side of the point. -/
def renderDec (n : ℕ) (k : ℕ) : List Char :=
  if k = 0 then natDigits n ++ ".0".data
  else
    let ds := natDigits n
    if ds.length ≤ k then "0.".data ++ List.replicate (k - ds.length) '0' ++ ds
    else ds.take (ds.length - k) ++ ['.'] ++ ds.drop (ds.length - k)

/-- `repr` / f-string rendering of a Python float (scientific-notation
thresholds for very large/small magnitudes are not modelled). -/
def pyFloatRepr : PyFloat → String
  | .infty true => "-inf"
  | .infty false => "inf"
  | .nan => "nan"
  | .finite d =>
    if d.num < 0 then ⟨'-' :: renderDec (-d.num).toNat d.scale⟩
    else ⟨renderDec d.num.toNat d.scale⟩


/-! ## `_yandex_maps_link_from_geo` (worker.py 93-105, bot_polling.py 79-91) -/

/-- The link text built by the f-string on worker.py line 105 (`pt={lon},{lat}`). -/
def mkYandexLink (lon lat : PyFloat) : String :=
  "https://yandex.ru/maps/?pt=" ++ pyFloatRepr lon ++ "," ++ pyFloatRepr lat ++
    "&z=16&l=map"

/-- `geo_text.replace(" ", "")`. -/
def removeSpaces (l : List Char) : List Char := l.filter (· ≠ ' ')

/-- Part before the first comma (`t.split(",", 1)[0]`). -/
def beforeComma (l : List Char) : List Char := l.takeWhile (· ≠ ',')

/-- Part after the first comma (`t.split(",", 1)[1]`). -/
def afterComma (l : List Char) : List Char := (l.dropWhile (· ≠ ',')).tail

/-- `_yandex_maps_link_from_geo(geo_text)`: `None` for an absent/empty string;
delete all spaces; `None` without a comma; split at the first comma; parse the
two parts with `float()`; on success the Yandex link with `lon,lat`. -/
def yandexMapsLinkFromGeo (geoText : Option String) : Option String :=
  match geoText with
  | none => none
  | some g =>
    if g = "" then none
    else
      let t := removeSpaces g.data
      if ¬ t.contains ',' then none
      else
        match pyFloatParseList (beforeComma t), pyFloatParseList (afterComma t) with
        | some lat, some lon => some (mkYandexLink lon lat)
        | some _, none => none
        | none, _ => none

/-- Modelled from the spec's words (§4.6 / §8, claim C5): a geo string
"of the form `<float>,<float>`" — it contains a comma and both parts of the
split at the first comma parse with Python `float()` (no space deletion is
mentioned by the spec). Used only to compare the spec's characterization
against the code's behaviour. -/
def specGeoFloatFloatForm (geoText : Option String) : Bool :=
  match geoText with
  | none => false
  | some g =>
    g.data.contains ',' &&
      (pyFloatParseList (beforeComma g.data)).isSome &&
      (pyFloatParseList (afterComma g.data)).isSome

/-! ## Data model: submission payload, request rows -/

/-- The JSON object sent by the mini-app (`data` in the handlers); absent keys
are `none`.  A raw payload that failed `json.loads` is the all-`none` payload
(the handler then works with `{"raw": raw}`). -/
structure Payload where
  phone : Option String := none
  phoneFormatted : Option String := none
  carBrand : Option String := none
  address : Option String := none
  geo : Option String := none
  ts : Option Int := none
deriving DecidableEq, Repr

/-- `message.from_user`. -/
structure Sender where
  id : Int
  username : Option String := none
  fullName : String := ""
deriving DecidableEq, Repr

/-- A persisted row of the `requests` table (fields used by the claims). -/
structure Request where
  id : Int
  tgUserId : Int
  tgUsername : Option String
  tgFullName : String
  payload : Payload
  yandexLink : Option String
  status : String
deriving DecidableEq, Repr

/-- `ALLOWED_STATUSES` (worker.py line 36) / the literal set in api.py line 275. -/
def ALLOWED_STATUSES : List String := ["new", "in_work", "done", "cancel"]

/-- Membership in the allowed-status set, as a boolean. -/
def isAllowedStatus (s : String) : Bool :=
  s = "new" || s = "in_work" || s = "done" || s = "cancel"

/-! ## Request store operations (worker.py 154-208, api.py 266-284) -/

/-- The bot-side in-memory/durable state of worker.py: the per-user rate-limit
map `last_request_ts`, the `requests` table (in insertion = creation order),
and the next `BIGSERIAL` id. -/
structure WorkerState where
  lastRequestTs : Int → Option Int
  db : List Request
  nextId : Int

/-- `db_create_request` (worker.py 154-177): computes the Yandex link from
`payload["geo"]` once, inserts a row with default status `new`, returns the
new id. -/
def dbCreateRequest (st : WorkerState) (u : Sender) (payload : Payload) :
    WorkerState × Int :=
  let link := yandexMapsLinkFromGeo payload.geo
  let rid := st.nextId
  ({ st with
      db := st.db ++
        [{ id := rid, tgUserId := u.id, tgUsername := u.username,
           tgFullName := u.fullName, payload := payload, yandexLink := link,
           status := "new" }],
      nextId := rid + 1 },
   rid)

/-- `db_set_status` (worker.py 205-208): `UPDATE requests SET status=$2 WHERE
id=$1`; the returned boolean is "at least one row matched". -/
def dbSetStatus (db : List Request) (reqId : Int) (status : String) :
    List Request × Bool :=
  (db.map fun r => if r.id = reqId then { r with status := status } else r,
   db.any fun r => r.id == reqId)

/-- `db_list_requests` (worker.py 186-202): clamp the limit into `[1, 50]`,
return the newest rows first (`ORDER BY created_at DESC LIMIT $1`; the store
list is kept in creation order, so newest-first is its reverse). -/
def dbListRequests (db : List Request) (limit : Int) : List Request :=
  let l := max 1 (min 50 limit)
  db.reverse.take l.toNat


/-! ## Notification formatting (worker.py 620-646) -/

/-- Char-list prefix test (used only to state "the notification omits the
map-link line"). -/
def hasPrefixCL : List Char → List Char → Bool
  | [], _ => true
  | _ :: _, [] => false
  | p :: ps, c :: cs => p = c && hasPrefixCL ps cs

/-- `sender_line` (worker.py 627-630): full name, plus ` (@username)` when the
username is truthy. -/
def senderLineOf (s : Sender) : String :=
  s.fullName ++
    (match s.username with
     | some u => if u = "" then "" else " (@" ++ u ++ ")"
     | none => "")

/-- The `lines` list sent to the dispatcher (worker.py 632-644).  `dtFmt`
abstracts `_dt` (local-timezone rendering of the millisecond timestamp). -/
def notificationLines (dtFmt : Option Int → String) (reqId : Int) (s : Sender)
    (data : Payload) : List String :=
  let phone := pyClean (pyOr data.phoneFormatted data.phone)
  let address := pyClean data.address
  let carBrand := pyClean data.carBrand
  let geo := pyClean data.geo
  let yandexLink := yandexMapsLinkFromGeo data.geo
  ["Заявка на эвакуатор (ID: " ++ toString reqId ++ ")",
   "",
   "Время: " ++ dtFmt data.ts,
   "Клиент: " ++ senderLineOf s,
   "Телефон: " ++ phone,
   "Марка: " ++ carBrand,
   "Адрес: " ++ address,
   "Гео: " ++ geo,
   "Статус: new"] ++
    (match yandexLink with
     | some l => ["Яндекс.Карты: " ++ l]
     | none => [])

/-! ## The webapp submission handlers (worker.py 597-652, bot_polling.py 291-345) -/

/-- `COOLDOWN_SECONDS = 5 * 60` (worker.py 31, bot_polling.py 24). -/
def COOLDOWN_SECONDS : Int := 5 * 60

/-- What `webapp_data_handler` did with a submission. -/
inductive SubmitOutcome where
  /-- Cooldown rejection with the remaining seconds
  (`int(COOLDOWN_SECONDS - (now - last))`). -/
  | rejected (remain : Int)
  /-- `bot.send_message` raised after the row was created: the exception
  escapes the handler before `last_request_ts[uid] = now` runs. -/
  | sendFailed (reqId : Int)
  /-- Send succeeded; the rate-limit timestamp was recorded. -/
  | accepted (reqId : Int)
deriving DecidableEq, Repr

/-- `webapp_data_handler` (worker.py 597-652).  `now` is `time.time()`;
`sendOk` is whether the outbound `bot.send_message` call succeeds (it can
raise, e.g. on a transport error); the dispatcher message text is returned
when a send was attempted. -/
def webappDataHandler (dtFmt : Option Int → String) (st : WorkerState)
    (sender : Sender) (now : Int) (data : Payload) (sendOk : Bool) :
    WorkerState × SubmitOutcome × Option (List String) :=
  let uid := sender.id
  let rejection : Option Int :=
    match st.lastRequestTs uid with
    | some last =>
      if now - last < COOLDOWN_SECONDS then
        some (COOLDOWN_SECONDS - (now - last))
      else none
    | none => none
  match rejection with
  | some remain => (st, .rejected remain, none)
  | none =>
    let (st1, rid) := dbCreateRequest st sender data
    let lines := notificationLines dtFmt rid sender data
    if sendOk then
      ({ st1 with
          lastRequestTs := fun v => if v = uid then some now else st1.lastRequestTs v },
       .accepted rid, some lines)
    else (st1, .sendFailed rid, some lines)

/-- Outcome of the bot_polling.py submission handler (no database there). -/
inductive BpOutcome where
  | rejected (remain : Int)
  | sendFailed
  | accepted
deriving DecidableEq, Repr

/-- `webapp_data_handler` (bot_polling.py 291-345): same rate-limit gate and
the same "record the timestamp only after the send returned" ordering, but no
database write. -/
def bpWebappDataHandler (lastTs : Int → Option Int) (uid : Int) (now : Int)
    (sendOk : Bool) : (Int → Option Int) × BpOutcome :=
  let rejection : Option Int :=
    match lastTs uid with
    | some last =>
      if now - last < COOLDOWN_SECONDS then
        some (COOLDOWN_SECONDS - (now - last))
      else none
    | none => none
  match rejection with
  | some remain => (lastTs, .rejected remain)
  | none =>
    if sendOk then
      ((fun v => if v = uid then some now else lastTs v), .accepted)
    else (lastTs, .sendFailed)


/-! ## Status updates (api.py 266-284, worker.py 463-485) -/

/-- Result of `POST /api/admin/requests/{id}/status`. -/
inductive ApiStatusResult where
  /-- `HTTPException(400, "Bad status")`, raised before any store write. -/
  | badRequest
  /-- `HTTPException(404, "Not found")`. -/
  | notFound
  /-- `{"item": {...}}` echoing the row's id and new status. -/
  | ok (reqId : Int) (status : String)
deriving DecidableEq, Repr

/-- `admin_set_request_status` (api.py 266-284): strip the submitted status,
reject anything outside the four allowed values with 400 before touching the
store, otherwise run the update and 404 when no row matched. -/
def adminSetRequestStatus (db : List Request) (reqId : Int) (raw : String) :
    List Request × ApiStatusResult :=
  let status := pyStrip raw
  if isAllowedStatus status then
    let r := dbSetStatus db reqId status
    if r.2 then (r.1, .ok reqId status) else (r.1, .notFound)
  else (db, .badRequest)

/-- The reply of the `/setstatus` bot command. -/
inductive SetStatusReply where
  | usage
  | idNotNumber
  | badStatus
  | notFound
  | done (reqId : Int) (status : String)
deriving DecidableEq, Repr

/-- `setstatus_cmd` (worker.py 463-485), after the dispatcher check:
`args = (command.args or "").strip().split()`, two tokens required, numeric
id, status validated against `ALLOWED_STATUSES` before `db_set_status`. -/
def setstatusCmd (db : List Request) (args : Option String) :
    List Request × SetStatusReply :=
  match pySplitWs (pyStrip (args.getD "")) with
  | [a0, a1] =>
    match pyIntParse a0 with
    | none => (db, .idNotNumber)
    | some reqId =>
      let status := pyStrip a1
      if isAllowedStatus status then
        let r := dbSetStatus db reqId status
        if r.2 then (r.1, .done reqId status) else (r.1, .notFound)
      else (db, .badStatus)
  | _ => (db, .usage)

/-! ## Listing (api.py 221-249) -/

/-- Result of `GET /api/admin/requests`. -/
inductive ApiListResult where
  /-- FastAPI rejects the request: `limit: int = Query(20, ge=1, le=100)`
  fails validation (422) before the endpoint body runs. -/
  | validationError
  | ok (items : List Request)
deriving DecidableEq, Repr

/-- `admin_list_requests` (api.py 221-249): the `limit` query parameter is
validated into `[1, 100]` (not clamped); a truthy `status` adds
`WHERE status = $2`; rows come back newest first, `LIMIT limit`. -/
def adminListRequests (db : List Request) (limit : Int)
    (status : Option String) : ApiListResult :=
  if limit < 1 ∨ 100 < limit then .validationError
  else
    let rows := db.reverse.filter fun r =>
      match status with
      | none => true
      | some s => if s = "" then true else r.status == s
    .ok (rows.take limit.toNat)

/-! ## Driver count (api.py 207-218, bot_polling.py 181-253, worker.py 536-592) -/

/-- `set_drivers` (api.py 207-218): the stored (and echoed) value, with
`if n < 0: n = 0`. -/
def apiSetDrivers (n : Int) : Int := if n < 0 then 0 else n

/-- Replies of the three bot_polling driver commands. -/
inductive DriversReply where
  | usage
  | needNonneg
  | done (n : Int)
deriving DecidableEq, Repr

/-- `setdrivers_cmd` (bot_polling.py 181-203), after the dispatcher check:
parse the argument, reject negatives (the command re-prompts instead of
clamping), store the value. -/
def setdriversCmd (cur : Int) (args : Option String) : Int × DriversReply :=
  let arg := pyStrip (args.getD "")
  if arg = "" then (cur, .usage)
  else
    match pyIntParse arg with
    | some n => if n < 0 then (cur, .needNonneg) else (n, .done n)
    | none => (cur, .needNonneg)

/-- `adddrivers_cmd` (bot_polling.py 206-228). -/
def adddriversCmd (cur : Int) (args : Option String) : Int × DriversReply :=
  let arg := pyStrip (args.getD "")
  if arg = "" then (cur, .usage)
  else
    match pyIntParse arg with
    | some delta =>
      if delta < 0 then (cur, .needNonneg)
      else (cur + delta, .done (cur + delta))
    | none => (cur, .needNonneg)

/-- `deldrivers_cmd` (bot_polling.py 231-253): `max(0, drivers_on_line - delta)`. -/
def deldriversCmd (cur : Int) (args : Option String) : Int × DriversReply :=
  let arg := pyStrip (args.getD "")
  if arg = "" then (cur, .usage)
  else
    match pyIntParse arg with
    | some delta =>
      if delta < 0 then (cur, .needNonneg)
      else (max 0 (cur - delta), .done (max 0 (cur - delta)))
    | none => (cur, .needNonneg)

/-- `cb_panel_drivers_add` (worker.py 536-557): the worker reads the current
count, clamps `cur + delta` at 0, and posts it to the API's driver endpoint,
which clamps again (api.py 214-216); the stored value results. -/
def cbPanelDriversAdd (cur : Int) (delta : Int) : Int :=
  apiSetDrivers (max 0 (cur + delta))

/-! ## Manager panel input-mode state machine (worker.py 560-592) -/

/-- `re.fullmatch(r"\d{1,6}", txt)` (ASCII digits). -/
def isDigits1to6 (s : String) : Bool :=
  decide (1 ≤ s.data.length) && decide (s.data.length ≤ 6) &&
    s.data.all Char.isDigit

/-- Replies of `manager_number_input`. -/
inductive ManagerReply where
  /-- Handler returned without doing anything (not the dispatcher). -/
  | notDispatcher
  /-- Handler returned without doing anything (mode is not `"setdrivers"`). -/
  | noMode
  /-- "Нужно отправить целое число": re-prompt, mode kept. -/
  | repromptNumber
  /-- Count set remotely; mode cleared. -/
  | setOk (n : Int)
  /-- `api_set_drivers` raised; mode kept. -/
  | setFailed
deriving DecidableEq, Repr

/-- `cb_panel_drivers_set` (worker.py 560-568): the dispatcher enters the
`"setdrivers"` input mode; anyone else is turned away untouched. -/
def cbPanelDriversSet (targetUserId : Int) (awaitMap : Int → Option String)
    (uid : Int) : (Int → Option String) × Bool :=
  if uid = targetUserId then
    ((fun v => if v = uid then some "setdrivers" else awaitMap v), true)
  else (awaitMap, false)

/-- `manager_number_input` (worker.py 571-592): dispatcher-only; only fires in
the `"setdrivers"` mode; the stripped text must match `\d{1,6}`; the mode is
popped only after `api_set_drivers` returned (`apiOk`). -/
def managerNumberInput (targetUserId : Int) (awaitMap : Int → Option String)
    (uid : Int) (text : String) (apiOk : Bool) :
    (Int → Option String) × ManagerReply :=
  if uid ≠ targetUserId then (awaitMap, .notDispatcher)
  else if awaitMap uid ≠ some "setdrivers" then (awaitMap, .noMode)
  else
    let txt := pyStrip text
    if ¬ isDigits1to6 txt then (awaitMap, .repromptNumber)
    else
      let n := (pyIntParse txt).getD 0
      if apiOk then ((fun v => if v = uid then none else awaitMap v), .setOk n)
      else (awaitMap, .setFailed)


/-! ## Authorization gate (api.py 30-90) -/

/-- Split a char list at the first occurrence of `c` (the separator removed). -/
def splitFirstAt (c : Char) (l : List Char) : List Char × List Char :=
  (l.takeWhile (· ≠ c), (l.dropWhile (· ≠ c)).tail)

/-- Dict assignment `out[k] = v`: overwrite in place or append. -/
def assocSet (m : List (String × String)) (k v : String) :
    List (String × String) :=
  if m.any (fun kv => kv.1 == k) then
    m.map fun kv => if kv.1 == k then (k, v) else kv
  else m ++ [(k, v)]

/-- `_parse_qs` (api.py 30-37): split on `&`, skip parts without `=`, split
each at the first `=`, later duplicates overwrite. -/
def parseQs (s : String) : List (String × String) :=
  (splitOnChar '&' s.data).foldl
    (fun m part =>
      if part.isEmpty ∨ ¬ part.contains '=' then m
      else
        let kv := splitFirstAt '=' part
        assocSet m ⟨kv.1⟩ ⟨kv.2⟩)
    []

/-- Python string `<` (code-point lexicographic). -/
def strLt : List Char → List Char → Bool
  | [], [] => false
  | [], _ :: _ => true
  | _ :: _, [] => false
  | a :: as', b :: bs' =>
    if a.toNat < b.toNat then true
    else if b.toNat < a.toNat then false
    else strLt as' bs'

/-- Insertion sort by Python string order (for `sorted(data.keys())`). -/
def insertSorted (x : String) : List String → List String
  | [] => [x]
  | y :: ys => if strLt y.data x.data then y :: insertSorted x ys else x :: y :: ys

/-- `sorted(keys)`. -/
def sortStrings : List String → List String
  | [] => []
  | x :: xs => insertSorted x (sortStrings xs)

/-- `data_check_string` (api.py 48): `"\n".join(f"{k}={data[k]}" for k in
sorted(data.keys()))`. -/
def dataCheckString (data : List (String × String)) : String :=
  String.intercalate "\n"
    ((sortStrings (data.map Prod.fst)).map fun k =>
      k ++ "=" ++ ((data.lookup k).getD ""))

/-- The non-`hash` fields of the parsed init data (`data` after
`data.pop("hash")`). -/
def initDataFields (initData : String) : List (String × String) :=
  (parseQs initData).filter fun kv => kv.1 ≠ "hash"

/-- `int(data.get("auth_date", "0") or "0")`'s argument. -/
def initAuthDateRaw (initData : String) : String :=
  let adRaw := ((initDataFields initData).lookup "auth_date").getD "0"
  if adRaw = "" then "0" else adRaw

/-- An error escaping an api.py endpoint. -/
inductive AuthErr where
  /-- `HTTPException(code, msg)`. -/
  | http (code : ℕ) (msg : String)
  /-- An uncaught Python exception (e.g. `int()` on a malformed
  `auth_date`), which FastAPI turns into a 500. -/
  | pyError
deriving DecidableEq, Repr

/-- `_tg_webapp_check_init_data` (api.py 40-70).  `calcHmac` abstracts the
two-step HMAC-SHA256 (`hmac.new(b"WebAppData", bot_token)` then
`hmac.new(secret, dcs).hexdigest()`) as a function of the bot token and the
data-check string; `parseUser` abstracts `json.loads(unquote(user_raw))`
followed by `int(user.get("id", 0) or 0)` (`none` = JSON decode failure).
`now` is `time.time()`. -/
def tgWebappCheckInitData (calcHmac : String → String → String)
    (parseUser : String → Option Int) (initData botToken : String)
    (now : Int) : Except AuthErr Int :=
  match (parseQs initData).lookup "hash" with
  | none => .error (.http 401 "No hash in initData")
  | some theirHash =>
    if theirHash = "" then .error (.http 401 "No hash in initData")
    else if calcHmac botToken (dataCheckString (initDataFields initData))
        ≠ theirHash then
      .error (.http 401 "Bad initData hash")
    else
      match pyIntParse (initAuthDateRaw initData) with
      | none => .error .pyError
      | some authDate =>
        if authDate = 0 then .error (.http 401 "No auth_date")
        else if now - authDate > 86400 then
          .error (.http 401 "initData expired")
        else
          match (initDataFields initData).lookup "user" with
          | none => .error (.http 401 "No user in initData")
          | some userRaw =>
            if userRaw = "" then .error (.http 401 "No user in initData")
            else
              match parseUser userRaw with
              | none => .error (.http 401 "Bad user json in initData")
              | some uid => .ok uid

/-- The api.py configuration environment. -/
structure ApiConfig where
  botToken : Option String
  targetUserId : Int
  apiAdminToken : Option String

/-- The shared-token comparison on api.py line 85:
`API_ADMIN_TOKEN and x_admin_token == API_ADMIN_TOKEN`. -/
def tokenMatches (cfg : ApiConfig) (xToken : Option String) : Bool :=
  pyTruthy cfg.apiAdminToken && xToken == cfg.apiAdminToken

/-- `_require_admin` (api.py 73-90): a truthy `X-Tg-Init-Data` header takes
the signed path (HMAC + 24h freshness + configured-id check); otherwise a
matching `X-Admin-Token` yields the configured target identity; otherwise
401. -/
def requireAdmin (calcHmac : String → String → String)
    (parseUser : String → Option Int) (cfg : ApiConfig)
    (xInitData xToken : Option String) (now : Int) : Except AuthErr Int :=
  if pyTruthy xInitData then
    if ¬ pyTruthy cfg.botToken then
      .error (.http 500 "BOT_TOKEN is required for initData auth")
    else
      match tgWebappCheckInitData calcHmac parseUser (xInitData.getD "")
          (cfg.botToken.getD "") now with
      | .error e => .error e
      | .ok uid =>
        if cfg.targetUserId = 0 then .error (.http 500 "TARGET_USER_ID not set")
        else if uid ≠ cfg.targetUserId then .error (.http 403 "Not an admin")
        else .ok uid
  else if tokenMatches cfg xToken then
    if cfg.targetUserId = 0 then .error (.http 500 "TARGET_USER_ID not set")
    else .ok cfg.targetUserId
  else .error (.http 401 "Unauthorized")


/-! ## Reachable states of the requests store -/

/-- All rows have an allowed status. -/
def dbStatusesOk (db : List Request) : Prop :=
  ∀ r ∈ db, isAllowedStatus r.status = true

/-- Every write path of the `requests` store in the repository: its creation
from the webapp handler (worker.py 618), the HTTP status endpoint
(api.py 266-284) and the `/setstatus` command (worker.py 463-485).  No other
code writes the table. -/
inductive ReachW : WorkerState → Prop
  | init : ReachW { lastRequestTs := fun _ => none, db := [], nextId := 1 }
  | submit (dtFmt : Option Int → String) (st : WorkerState) (sender : Sender)
      (now : Int) (data : Payload) (sendOk : Bool) : ReachW st →
      ReachW (webappDataHandler dtFmt st sender now data sendOk).1
  | apiStatus (st : WorkerState) (reqId : Int) (raw : String) : ReachW st →
      ReachW { st with db := (adminSetRequestStatus st.db reqId raw).1 }
  | botStatus (st : WorkerState) (args : Option String) : ReachW st →
      ReachW { st with db := (setstatusCmd st.db args).1 }

/-! ## Driver-count operations, as one step type -/

/-- Every mutation of the shared driver counter: the API set endpoint (also
the target of the worker's remote writes), the three bot_polling commands and
the worker's +1/−1 panel button (a get, a local clamp, then a remote set). -/
inductive DriversOp where
  | apiSet (n : Int)
  | botSet (args : Option String)
  | botAdd (args : Option String)
  | botDel (args : Option String)
  | panelAdd (delta : Int)

/-- Apply one driver-counter operation to the current stored value. -/
def applyDriversOp (cur : Int) : DriversOp → Int
  | .apiSet n => apiSetDrivers n
  | .botSet a => (setdriversCmd cur a).1
  | .botAdd a => (adddriversCmd cur a).1
  | .botDel a => (deldriversCmd cur a).1
  | .panelAdd d => cbPanelDriversAdd cur d

/-! ## Concrete sample data for the closed instances below -/

/-- The fresh worker state (empty store, `BIGSERIAL` starts at 1). -/
def workerState0 : WorkerState :=
  { lastRequestTs := fun _ => none, db := [], nextId := 1 }

/-- A worker state whose user 7 last submitted at time 100. -/
def workerStateT : WorkerState :=
  { lastRequestTs := fun v => if v = 7 then some 100 else none, db := [],
    nextId := 1 }

/-- The §8 end-to-end sample payload. -/
def samplePayload : Payload :=
  { phone := some "123", carBrand := some "Toyota", address := some "Main St 1",
    geo := some "55.75,37.61" }

/-- A sample customer. -/
def sampleSender : Sender := { id := 7, username := none, fullName := "Customer" }

/-- A minimal request row. -/
def sampleRow (i : Int) (status : String) : Request :=
  { id := i, tgUserId := 1, tgUsername := none, tgFullName := "U",
    payload := {}, yandexLink := none, status := status }

/-- Sixty persisted rows (to exercise the listing bound). -/
def bigDb : List Request := (List.range 60).map fun i => sampleRow i "new"

/-- A trivial stand-in for the abstract `_dt` clock renderer. -/
def dtFmt0 : Option Int → String := fun _ => "—"

/-- A concrete stand-in for the abstract HMAC (constant digest `H`). -/
def hmac0 : String → String → String := fun _ _ => "H"

/-- A concrete stand-in for the abstract user-JSON decoder (id 99). -/
def parseUser0 : String → Option Int := fun _ => some 99

/-- A concrete api.py configuration: bot token `B`, target id 42, shared
token `tok`. -/
def apiCfg0 : ApiConfig :=
  { botToken := some "B", targetUserId := 42, apiAdminToken := some "tok" }


/-! ## Helper lemmas about the submission handler -/

/-- Cooldown hit: the handler answers the remaining time and does nothing. -/
theorem webappDataHandler_rejected_eq (dtFmt : Option Int → String)
    (st : WorkerState) (sender : Sender) (now : Int) (data : Payload)
    (sendOk : Bool) (last : Int) (h : st.lastRequestTs sender.id = some last)
    (hlt : now - last < COOLDOWN_SECONDS) :
    webappDataHandler dtFmt st sender now data sendOk
      = (st, .rejected (COOLDOWN_SECONDS - (now - last)), none) := by
  unfold webappDataHandler
  simp only [h]
  simp [hlt]

/-- No cooldown hit: the row is created, the send is attempted, and the
timestamp is recorded exactly when the send succeeded. -/
theorem webappDataHandler_proceed_eq (dtFmt : Option Int → String)
    (st : WorkerState) (sender : Sender) (now : Int) (data : Payload)
    (sendOk : Bool)
    (h : ∀ last, st.lastRequestTs sender.id = some last →
      COOLDOWN_SECONDS ≤ now - last) :
    webappDataHandler dtFmt st sender now data sendOk
      = (let p := dbCreateRequest st sender data
         let lines := notificationLines dtFmt p.2 sender data
         if sendOk then
           ({ p.1 with
              lastRequestTs := fun v =>
                if v = sender.id then some now else p.1.lastRequestTs v },
            .accepted p.2, some lines)
         else (p.1, .sendFailed p.2, some lines)) := by
  unfold webappDataHandler
  cases hl : st.lastRequestTs sender.id with
  | none => simp [hl]
  | some last =>
    have hge := h last hl
    simp [hl, not_lt.mpr hge]


/-- Claim C1: in both webapp-submission handlers the per-user rate-limit
timestamp is recorded only after the dispatcher notification succeeded: when
`bot.send_message` raises (`sendOk = false`), the whole `last_request_ts` map
is left exactly as it was, so the failed attempt does not consume the user's
cooldown window. -/
theorem C1_rate_limit_not_consumed_on_send_failure
    (dtFmt : Option Int → String) (st : WorkerState) (sender : Sender)
    (now : Int) (data : Payload) (lastTs : Int → Option Int)
    (uid now' : Int) :
    (webappDataHandler dtFmt st sender now data false).1.lastRequestTs
      = st.lastRequestTs ∧
    (bpWebappDataHandler lastTs uid now' false).1 = lastTs := by
  constructor
  · unfold webappDataHandler
    cases hl : st.lastRequestTs sender.id with
    | none => simp [hl, dbCreateRequest]
    | some last =>
      by_cases hlt : now - last < COOLDOWN_SECONDS <;>
        simp [hl, hlt, dbCreateRequest]
  · unfold bpWebappDataHandler
    cases hl : lastTs uid with
    | none => simp [hl]
    | some last =>
      by_cases hlt : now' - last < COOLDOWN_SECONDS <;> simp [hl, hlt]

/-- Claim C2: with the user's last accepted submission recorded at time `T`,
a submission at `T + (COOLDOWN_SECONDS − 1)` is rejected with a strictly
positive remaining time, and a submission at `T + d` for any `d ≥
COOLDOWN_SECONDS` is accepted (`COOLDOWN_SECONDS = 300`). -/
theorem C2_cooldown_window_boundary (dtFmt : Option Int → String)
    (st : WorkerState) (sender : Sender) (data : Payload) (T : Int)
    (h : st.lastRequestTs sender.id = some T) :
    (∃ remain : Int,
      (webappDataHandler dtFmt st sender (T + (COOLDOWN_SECONDS - 1)) data
          true).2.1 = .rejected remain ∧ 0 < remain) ∧
    (∀ d : Int, COOLDOWN_SECONDS ≤ d →
      (webappDataHandler dtFmt st sender (T + d) data true).2.1
        = .accepted st.nextId) ∧
    COOLDOWN_SECONDS = 300 := by
  refine ⟨⟨1, ?_, one_pos⟩, fun d hd => ?_, rfl⟩
  · rw [webappDataHandler_rejected_eq dtFmt st sender _ data true T h (by omega)]
    norm_num
  · rw [webappDataHandler_proceed_eq dtFmt st sender _ data true
      (fun last hl => by rw [h] at hl; injection hl with e; omega)]
    simp [dbCreateRequest]

/-- Claim C2, closed instance: user 7 last accepted at time 100; the
boundary property holds there (at time 399 the submission is rejected with a
positive remaining time, at `100 + d` for `d ≥ 300` it is accepted). -/
theorem C2_cooldown_window_boundary_witness :
    workerStateT.lastRequestTs sampleSender.id = some 100 ∧
    ((∃ remain : Int,
      (webappDataHandler dtFmt0 workerStateT sampleSender
          (100 + (COOLDOWN_SECONDS - 1)) samplePayload true).2.1
        = .rejected remain ∧ 0 < remain) ∧
    (∀ d : Int, COOLDOWN_SECONDS ≤ d →
      (webappDataHandler dtFmt0 workerStateT sampleSender (100 + d)
          samplePayload true).2.1 = .accepted workerStateT.nextId) ∧
    COOLDOWN_SECONDS = 300) :=
  ⟨rfl, C2_cooldown_window_boundary dtFmt0 workerStateT sampleSender
    samplePayload 100 rfl⟩


/-- Claim C10: in the worker's handler the row is persisted before the
notification is attempted: when the send raises, the handler ends with the
created row in the store and the rate-limit timestamp not recorded, so a
retry by the same user — at any later time, in particular within the
cooldown — is accepted and persists a second row for the same incident. -/
theorem C10_row_persisted_send_fails_then_duplicate
    (dtFmt : Option Int → String) (st : WorkerState) (sender : Sender)
    (now : Int) (data : Payload) (h : st.lastRequestTs sender.id = none) :
    (webappDataHandler dtFmt st sender now data false).2.1
      = .sendFailed st.nextId ∧
    (webappDataHandler dtFmt st sender now data false).1.db
      = st.db ++
        [{ id := st.nextId, tgUserId := sender.id,
           tgUsername := sender.username, tgFullName := sender.fullName,
           payload := data, yandexLink := yandexMapsLinkFromGeo data.geo,
           status := "new" }] ∧
    (webappDataHandler dtFmt st sender now data false).1.lastRequestTs
      = st.lastRequestTs ∧
    ∀ now' : Int, ∀ data' : Payload,
      (webappDataHandler dtFmt
          (webappDataHandler dtFmt st sender now data false).1 sender now'
          data' true).2.1 = .accepted (st.nextId + 1) ∧
      ((webappDataHandler dtFmt
          (webappDataHandler dtFmt st sender now data false).1 sender now'
          data' true).1.db.filter fun q => q.tgUserId == sender.id).length
        = (st.db.filter fun q => q.tgUserId == sender.id).length + 2 := by
  have hfail := webappDataHandler_proceed_eq dtFmt st sender now data false
    (fun last hl => absurd (h ▸ hl) (by simp))
  have hdb1 : (webappDataHandler dtFmt st sender now data false).1.db
      = st.db ++
        [{ id := st.nextId, tgUserId := sender.id,
           tgUsername := sender.username, tgFullName := sender.fullName,
           payload := data, yandexLink := yandexMapsLinkFromGeo data.geo,
           status := "new" }] := by
    rw [hfail]; simp [dbCreateRequest]
  have hts : (webappDataHandler dtFmt st sender now data false).1.lastRequestTs
      = st.lastRequestTs := by
    rw [hfail]; simp [dbCreateRequest]
  have hnext : (webappDataHandler dtFmt st sender now data false).1.nextId
      = st.nextId + 1 := by
    rw [hfail]; simp [dbCreateRequest]
  refine ⟨by rw [hfail]; simp [dbCreateRequest], hdb1, hts, fun now' data' => ?_⟩
  have hretry := webappDataHandler_proceed_eq dtFmt
    (webappDataHandler dtFmt st sender now data false).1 sender now' data' true
    (fun last hl => by rw [hts, h] at hl; exact absurd hl (by simp))
  constructor
  · rw [hretry]; simp [dbCreateRequest, hnext]
  · rw [hretry]
    simp only [dbCreateRequest, hdb1, hnext]
    simp [List.filter_append]


/-- Claim C10, closed instance: fresh state, send fails at time 100, retry at
time 150 (within the cooldown) is accepted and leaves two rows from user 7. -/
theorem C10_row_persisted_send_fails_then_duplicate_witness :
    workerState0.lastRequestTs sampleSender.id = none ∧
    ((webappDataHandler dtFmt0 workerState0 sampleSender 100 samplePayload
        false).2.1 = .sendFailed workerState0.nextId ∧
    (webappDataHandler dtFmt0 workerState0 sampleSender 100 samplePayload
        false).1.db
      = workerState0.db ++
        [{ id := workerState0.nextId, tgUserId := sampleSender.id,
           tgUsername := sampleSender.username,
           tgFullName := sampleSender.fullName, payload := samplePayload,
           yandexLink := yandexMapsLinkFromGeo samplePayload.geo,
           status := "new" }] ∧
    (webappDataHandler dtFmt0 workerState0 sampleSender 100 samplePayload
        false).1.lastRequestTs = workerState0.lastRequestTs ∧
    ∀ now' : Int, ∀ data' : Payload,
      (webappDataHandler dtFmt0
          (webappDataHandler dtFmt0 workerState0 sampleSender 100
            samplePayload false).1 sampleSender now' data' true).2.1
        = .accepted (workerState0.nextId + 1) ∧
      ((webappDataHandler dtFmt0
          (webappDataHandler dtFmt0 workerState0 sampleSender 100
            samplePayload false).1 sampleSender now' data' true).1.db.filter
          fun q => q.tgUserId == sampleSender.id).length
        = (workerState0.db.filter
            fun q => q.tgUserId == sampleSender.id).length + 2) :=
  ⟨rfl, C10_row_persisted_send_fails_then_duplicate dtFmt0 workerState0
    sampleSender 100 samplePayload rfl⟩


/-! ## Status-invariant preservation lemmas -/

/-- `db_set_status` with an allowed status keeps every row's status allowed. -/
theorem dbSetStatus_statusesOk (db : List Request) (reqId : Int) (s : String)
    (hs : isAllowedStatus s = true) (h : dbStatusesOk db) :
    dbStatusesOk (dbSetStatus db reqId s).1 := by
  intro r hr
  rcases List.mem_map.mp hr with ⟨q, hq, rfl⟩
  by_cases hid : q.id = reqId <;> simp [hid, hs, h q hq]

/-- The HTTP status endpoint keeps every row's status allowed. -/
theorem adminSetRequestStatus_statusesOk (db : List Request) (reqId : Int)
    (raw : String) (h : dbStatusesOk db) :
    dbStatusesOk (adminSetRequestStatus db reqId raw).1 := by
  unfold adminSetRequestStatus
  cases ha : isAllowedStatus (pyStrip raw) with
  | false => simpa [ha] using h
  | true =>
    have := dbSetStatus_statusesOk db reqId (pyStrip raw) ha h
    by_cases h2 : (dbSetStatus db reqId (pyStrip raw)).2 = true <;>
      simp [ha, h2, this]

/-- The `/setstatus` command keeps every row's status allowed. -/
theorem setstatusCmd_statusesOk (db : List Request) (args : Option String)
    (h : dbStatusesOk db) : dbStatusesOk (setstatusCmd db args).1 := by
  unfold setstatusCmd
  cases hsp : pySplitWs (pyStrip (args.getD "")) with
  | nil => simpa [hsp] using h
  | cons a0 rest =>
    cases rest with
    | nil => simpa [hsp] using h
    | cons a1 rest2 =>
      cases rest2 with
      | cons b l => simpa [hsp] using h
      | nil =>
        cases hi : pyIntParse a0 with
        | none => simpa [hsp, hi] using h
        | some k =>
          cases ha : isAllowedStatus (pyStrip a1) with
          | false => simpa [hsp, hi, ha] using h
          | true =>
            have := dbSetStatus_statusesOk db k (pyStrip a1) ha h
            by_cases h2 : (dbSetStatus db k (pyStrip a1)).2 = true <;>
              simp [hsp, hi, ha, h2, this]

/-- The submission handler only ever inserts rows with status `new`. -/
theorem webappDataHandler_statusesOk (dtFmt : Option Int → String)
    (st : WorkerState) (sender : Sender) (now : Int) (data : Payload)
    (sendOk : Bool) (h : dbStatusesOk st.db) :
    dbStatusesOk (webappDataHandler dtFmt st sender now data sendOk).1.db := by
  have hnew : dbStatusesOk (dbCreateRequest st sender data).1.db := by
    intro r hr
    simp only [dbCreateRequest] at hr
    rcases List.mem_append.mp hr with h1 | h1
    · exact h r h1
    · rcases List.mem_singleton.mp h1 with rfl; rfl
  unfold webappDataHandler
  cases hl : st.lastRequestTs sender.id with
  | none => cases sendOk <;> simpa [hl] using hnew
  | some last =>
    by_cases hlt : now - last < COOLDOWN_SECONDS
    · simpa [hl, hlt] using h
    · cases sendOk <;> simpa [hl, hlt] using hnew

/-- Every reachable store has only allowed statuses. -/
theorem ReachW_statusesOk (st : WorkerState) (h : ReachW st) :
    dbStatusesOk st.db := by
  induction h with
  | init => intro r hr; simp at hr
  | submit dtFmt st sender now data sendOk _ ih =>
    exact webappDataHandler_statusesOk dtFmt st sender now data sendOk ih
  | apiStatus st reqId raw _ ih =>
    exact adminSetRequestStatus_statusesOk st.db reqId raw ih
  | botStatus st args _ ih => exact setstatusCmd_statusesOk st.db args ih

/-- Claim C3: every persisted request row's status is one of
`new`/`in_work`/`done`/`cancel`; both setters reject any other value before
any store write, leaving the store unchanged (the bot command, whose id
token parsed, answers "bad status"; the endpoint answers 400). -/
theorem C3_status_enum_invariant :
    (∀ st : WorkerState, ReachW st → dbStatusesOk st.db) ∧
    (∀ (db : List Request) (reqId : Int) (raw : String),
      isAllowedStatus (pyStrip raw) = false →
      adminSetRequestStatus db reqId raw = (db, .badRequest)) ∧
    (∀ (db : List Request) (args : Option String) (a0 a1 : String) (k : Int),
      pySplitWs (pyStrip (args.getD "")) = [a0, a1] →
      pyIntParse a0 = some k →
      isAllowedStatus (pyStrip a1) = false →
      setstatusCmd db args = (db, .badStatus)) := by
  refine ⟨ReachW_statusesOk, ?_, ?_⟩
  · intro db reqId raw h
    simp [adminSetRequestStatus, h]
  · intro db args a0 a1 k hsp hk h
    simp [setstatusCmd, hsp, hk, h]

/-- Claim C3, closed instance: the one-submission store satisfies the
invariant; `weird` is rejected without a write by both setters. -/
theorem C3_status_enum_invariant_witness :
    (isAllowedStatus (pyStrip "weird") = false ∧
      pySplitWs (pyStrip ((some "1 weird").getD "")) = ["1", "weird"] ∧
      pyIntParse "1" = some 1) ∧
    dbStatusesOk (webappDataHandler dtFmt0 workerState0 sampleSender 5
        samplePayload true).1.db ∧
    adminSetRequestStatus [sampleRow 1 "new"] 1 "weird"
      = ([sampleRow 1 "new"], .badRequest) ∧
    setstatusCmd [sampleRow 1 "new"] (some "1 weird")
      = ([sampleRow 1 "new"], .badStatus) :=
  ⟨⟨by decide, by decide, by decide⟩,
   C3_status_enum_invariant.1 _
     (ReachW.submit dtFmt0 workerState0 sampleSender 5 samplePayload true
       ReachW.init),
   C3_status_enum_invariant.2.1 [sampleRow 1 "new"] 1 "weird" (by decide),
   C3_status_enum_invariant.2.2 [sampleRow 1 "new"] (some "1 weird") "1"
     "weird" 1 (by decide) (by decide) (by decide)⟩


/-- Claim C9: setting a request that is already `done` to `done` again
succeeds and leaves the store unchanged; an id with no row yields not-found
and also leaves the store unchanged. -/
theorem C9_idempotent_status_update :
    (∀ (db : List Request) (reqId : Int),
      (∃ r ∈ db, r.id = reqId) →
      (∀ r ∈ db, r.id = reqId → r.status = "done") →
      adminSetRequestStatus db reqId "done" = (db, .ok reqId "done")) ∧
    (∀ (db : List Request) (reqId : Int),
      (∀ r ∈ db, r.id ≠ reqId) →
      adminSetRequestStatus db reqId "done" = (db, .notFound)) := by
  have hstrip : pyStrip "done" = "done" := by decide
  have hmapid : ∀ (db : List Request) (reqId : Int),
      (∀ r ∈ db, r.id = reqId → r.status = "done") →
      (db.map fun r =>
        if r.id = reqId then { r with status := "done" } else r) = db := by
    intro db reqId hall
    have : ∀ r ∈ db,
        (if r.id = reqId then { r with status := "done" } else r) = r := by
      intro r hr
      by_cases hid : r.id = reqId
      · obtain ⟨i, u, un, fn, pl, yl, stt⟩ := r
        have := hall _ hr hid
        simp_all
      · simp [hid]
    calc (db.map fun r =>
          if r.id = reqId then { r with status := "done" } else r)
        = db.map id := List.map_congr_left this
      _ = db := List.map_id db
  constructor
  · intro db reqId hex hall
    obtain ⟨r0, hr0, hid0⟩ := hex
    have hany : (db.any fun r => r.id == reqId) = true :=
      List.any_eq_true.mpr ⟨r0, hr0, beq_iff_eq.mpr hid0⟩
    simp [adminSetRequestStatus, hstrip, dbSetStatus, isAllowedStatus, hany,
      hmapid db reqId hall]
  · intro db reqId hnone
    have hany : (db.any fun r => r.id == reqId) = false := by
      rw [List.any_eq_false]
      intro r hr
      simp [hnone r hr]
    have hmap : (db.map fun r =>
        if r.id = reqId then { r with status := "done" } else r) = db :=
      hmapid db reqId fun r hr hid => absurd hid (hnone r hr)
    simp [adminSetRequestStatus, hstrip, dbSetStatus, isAllowedStatus, hany,
      hmap]

/-- Claim C9, closed instance: a store whose row 1 is already `done`; and an
empty store for the not-found half. -/
theorem C9_idempotent_status_update_witness :
    ((∃ r ∈ [sampleRow 1 "done"], r.id = 1) ∧
      (∀ r ∈ [sampleRow 1 "done"], r.id = 1 → r.status = "done") ∧
      (∀ r ∈ ([] : List Request), r.id ≠ (5 : Int))) ∧
    adminSetRequestStatus [sampleRow 1 "done"] 1 "done"
      = ([sampleRow 1 "done"], .ok 1 "done") ∧
    adminSetRequestStatus [] 5 "done" = ([], .notFound) :=
  ⟨⟨by decide, by decide, by decide⟩,
   C9_idempotent_status_update.1 [sampleRow 1 "done"] 1 (by decide)
     (by decide),
   C9_idempotent_status_update.2 [] 5 (by decide)⟩

/-- Claim C4: the driver counter can never be pushed below zero: the API set
endpoint stores 0 for a negative value, `/deldrivers` on a zero counter
yields 0 for any argument, the worker's +1/−1 panel button stores
`max 0 (cur + delta)`, and every counter operation preserves nonnegativity. -/
theorem C4_driver_count_never_negative :
    (∀ n : Int, n < 0 → apiSetDrivers n = 0) ∧
    (∀ args : Option String, (deldriversCmd 0 args).1 = 0) ∧
    (∀ cur delta : Int,
      cbPanelDriversAdd cur delta = max 0 (cur + delta) ∧
      0 ≤ cbPanelDriversAdd cur delta) ∧
    (∀ (cur : Int) (op : DriversOp), 0 ≤ cur →
      0 ≤ applyDriversOp cur op) := by
  refine ⟨?_, ?_, ?_, ?_⟩
  · intro n hn
    simp [apiSetDrivers, hn]
  · intro args
    unfold deldriversCmd
    by_cases he : pyStrip (args.getD "") = ""
    · simp [he]
    · cases hi : pyIntParse (pyStrip (args.getD "")) with
      | none => simp [he, hi]
      | some delta =>
        by_cases hd : delta < 0 <;> (simp [he, hi, hd]; try omega)
  · intro cur delta
    constructor
    · simp only [cbPanelDriversAdd, apiSetDrivers]
      split <;> omega
    · simp only [cbPanelDriversAdd, apiSetDrivers]
      split <;> omega
  · intro cur op hcur
    cases op with
    | apiSet n =>
      simp only [applyDriversOp, apiSetDrivers]
      split <;> omega
    | botSet a =>
      simp only [applyDriversOp]
      unfold setdriversCmd
      by_cases he : pyStrip (a.getD "") = ""
      · simpa [he] using hcur
      · cases hi : pyIntParse (pyStrip (a.getD "")) with
        | none => simpa [he, hi] using hcur
        | some n => by_cases hn : n < 0 <;> simp [he, hi, hn] <;> omega
    | botAdd a =>
      simp only [applyDriversOp]
      unfold adddriversCmd
      by_cases he : pyStrip (a.getD "") = ""
      · simpa [he] using hcur
      · cases hi : pyIntParse (pyStrip (a.getD "")) with
        | none => simpa [he, hi] using hcur
        | some n => by_cases hn : n < 0 <;> simp [he, hi, hn] <;> omega
    | botDel a =>
      simp only [applyDriversOp]
      unfold deldriversCmd
      by_cases he : pyStrip (a.getD "") = ""
      · simpa [he] using hcur
      · cases hi : pyIntParse (pyStrip (a.getD "")) with
        | none => simpa [he, hi] using hcur
        | some n => by_cases hn : n < 0 <;> (simp [he, hi, hn]; try omega)
    | panelAdd d =>
      simp only [applyDriversOp, cbPanelDriversAdd, apiSetDrivers]
      split <;> omega

/-- Claim C4, closed instance: set with −5 stores 0; `/deldrivers 3` on a
zero counter stores 0; the −1 button on a zero counter stores 0; one step of
every operation from 0 stays nonnegative. -/
theorem C4_driver_count_never_negative_witness :
    ((-5 : Int) < 0 ∧ (0 : Int) ≤ 0) ∧
    apiSetDrivers (-5) = 0 ∧
    (deldriversCmd 0 (some "3")).1 = 0 ∧
    (cbPanelDriversAdd 0 (-1) = max 0 (0 + -1) ∧
      0 ≤ cbPanelDriversAdd 0 (-1)) ∧
    0 ≤ applyDriversOp 0 (.botDel (some "7")) :=
  ⟨⟨by decide, by decide⟩,
   C4_driver_count_never_negative.1 (-5) (by decide),
   C4_driver_count_never_negative.2.1 (some "3"),
   C4_driver_count_never_negative.2.2.1 0 (-1),
   C4_driver_count_never_negative.2.2.2 0 (.botDel (some "7")) (by decide)⟩


/-- The 60-row store seen through the reversal. -/
theorem bigDb_reverse_length : bigDb.reverse.length = 60 := by decide

/-- The admin listing at limit 100 with no filter returns all 60 rows. -/
theorem adminListRequests_bigDb_100 :
    adminListRequests bigDb 100 none = .ok bigDb.reverse := by
  unfold adminListRequests
  rw [if_neg (by omega)]
  have hfilter : (bigDb.reverse.filter fun r =>
      match (none : Option String) with
      | none => true
      | some s => if s = "" then true else r.status == s) = bigDb.reverse :=
    List.filter_true bigDb.reverse
  show ApiListResult.ok _ = _
  rw [hfilter]
  decide

/-- Claim C6, counterexample: the HTTP admin listing does not clamp the
limit: `limit = 200` is rejected by the `Query(20, ge=1, le=100)` validation
instead of succeeding, and an accepted `limit = 100` returns 60 items from a
60-row store — more than 50. -/
theorem C6_limit_clamp_counterexample :
    adminListRequests bigDb 200 none = .validationError ∧
    ∃ items, adminListRequests bigDb 100 none = .ok items ∧
      50 < items.length := by
  constructor
  · unfold adminListRequests
    rw [if_pos (by omega)]
  · exact ⟨bigDb.reverse, adminListRequests_bigDb_100, by
      rw [bigDb_reverse_length]; omega⟩

/-- Claim C6 (amended): the worker-side listing (`db_list_requests` and its
command/callback callers) clamps the limit into `[1, 50]` and returns at most
50 items; the HTTP admin listing instead validates the limit into `[1, 100]`
— out-of-range values such as 200 produce a validation error, not a clamped
success — and an accepted limit returns at most 100 items. -/
theorem C6_limit_bounds :
    (∀ (db : List Request) (limit : Int),
      (dbListRequests db limit).length ≤ 50) ∧
    (∀ (db : List Request) (status : Option String),
      adminListRequests db 200 status = .validationError) ∧
    (∀ (db : List Request) (limit : Int) (status : Option String),
      limit < 1 ∨ 100 < limit →
      adminListRequests db limit status = .validationError) ∧
    (∀ (db : List Request) (limit : Int) (status : Option String)
        (items : List Request),
      adminListRequests db limit status = .ok items →
      items.length ≤ 100) := by
  refine ⟨?_, ?_, ?_, ?_⟩
  · intro db limit
    unfold dbListRequests
    calc (db.reverse.take (max 1 (min 50 limit)).toNat).length
        ≤ (max 1 (min 50 limit)).toNat := List.length_take_le _ _
      _ ≤ 50 := by omega
  · intro db status
    unfold adminListRequests
    rw [if_pos (by omega)]
  · intro db limit status hout
    unfold adminListRequests
    rw [if_pos (by omega)]
  · intro db limit status items h
    unfold adminListRequests at h
    by_cases hc : limit < 1 ∨ 100 < limit
    · rw [if_pos hc] at h
      exact absurd h (by simp)
    · rw [if_neg hc] at h
      have hitems : items = (db.reverse.filter fun r =>
          match status with
          | none => true
          | some s => if s = "" then true else r.status == s).take
            limit.toNat := by
        injection h with h'
        exact h'.symm
      subst hitems
      calc _ ≤ limit.toNat := List.length_take_le _ _
        _ ≤ 100 := by omega

/-- Claim C6 (amended), closed instance: on the 60-row store, the worker
listing with limit 200 returns at most 50 items; the HTTP listing with limit
200 fails validation; the HTTP listing with limit 100 returns at most 100
items. -/
theorem C6_limit_bounds_witness :
    (((200 : Int) < 1 ∨ (100 : Int) < 200) ∧
      adminListRequests bigDb 100 none = .ok bigDb.reverse) ∧
    (dbListRequests bigDb 200).length ≤ 50 ∧
    adminListRequests bigDb 200 none = .validationError ∧
    bigDb.reverse.length ≤ 100 :=
  ⟨⟨by omega, adminListRequests_bigDb_100⟩,
   C6_limit_bounds.1 bigDb 200,
   C6_limit_bounds.2.2.1 bigDb 200 none (by omega),
   C6_limit_bounds.2.2.2 bigDb 100 none bigDb.reverse
     adminListRequests_bigDb_100⟩


/-- Claim C8: for a dispatcher in the `setdrivers` input mode, the next text
message sets the driver count only when it is a 1-to-6-digit string — then a
successful remote set clears the mode — while a non-matching message keeps
the mode and re-prompts; entries of other users are never written, the
handler's behaviour depends only on the sender's own entry, and
non-dispatchers never enter or touch the machine. -/
theorem C8_manager_await_state_machine :
    (∀ (target : Int) (m : Int → Option String) (uid : Int) (text : String),
      uid = target → m uid = some "setdrivers" →
      isDigits1to6 (pyStrip text) = true →
      (managerNumberInput target m uid text true).1 uid = none ∧
      (managerNumberInput target m uid text true).2
        = .setOk ((pyIntParse (pyStrip text)).getD 0)) ∧
    (∀ (target : Int) (m : Int → Option String) (uid : Int) (text : String)
        (apiOk : Bool),
      uid = target → m uid = some "setdrivers" →
      isDigits1to6 (pyStrip text) = false →
      managerNumberInput target m uid text apiOk = (m, .repromptNumber)) ∧
    (∀ (target : Int) (m : Int → Option String) (uid : Int) (text : String)
        (apiOk : Bool) (v : Int), v ≠ uid →
      (managerNumberInput target m uid text apiOk).1 v = m v) ∧
    (∀ (target : Int) (m1 m2 : Int → Option String) (uid : Int)
        (text : String) (apiOk : Bool), m1 uid = m2 uid →
      (managerNumberInput target m1 uid text apiOk).2
        = (managerNumberInput target m2 uid text apiOk).2 ∧
      (managerNumberInput target m1 uid text apiOk).1 uid
        = (managerNumberInput target m2 uid text apiOk).1 uid) ∧
    (∀ (target : Int) (m : Int → Option String) (uid : Int) (text : String)
        (apiOk : Bool), uid ≠ target →
      managerNumberInput target m uid text apiOk = (m, .notDispatcher)) ∧
    (∀ (target : Int) (m : Int → Option String) (uid : Int), uid = target →
      (cbPanelDriversSet target m uid).1 uid = some "setdrivers") ∧
    (∀ (target : Int) (m : Int → Option String) (uid v : Int), v ≠ uid →
      (cbPanelDriversSet target m uid).1 v = m v) ∧
    (∀ (target : Int) (m : Int → Option String) (uid : Int), uid ≠ target →
      cbPanelDriversSet target m uid = (m, false)) := by
  refine ⟨?_, ?_, ?_, ?_, ?_, ?_, ?_, ?_⟩
  · intro target m uid text ht hm hd
    subst ht
    simp [managerNumberInput, hm, hd]
  · intro target m uid text apiOk ht hm hd
    subst ht
    simp [managerNumberInput, hm, hd]
  · intro target m uid text apiOk v hv
    unfold managerNumberInput
    by_cases ht : uid ≠ target
    · simp [ht]
    · by_cases hm : m uid ≠ some "setdrivers"
      · simp [ht, hm]
      · by_cases hd : isDigits1to6 (pyStrip text)
        · cases apiOk <;> simp [ht, hm, hd, hv]
        · simp [ht, hm, hd]
  · intro target m1 m2 uid text apiOk hagree
    unfold managerNumberInput
    by_cases ht : uid ≠ target
    · simp [ht, hagree]
    · rw [hagree]
      by_cases hm : m2 uid ≠ some "setdrivers"
      · simp [ht, hm, hagree]
      · by_cases hd : isDigits1to6 (pyStrip text)
        · cases apiOk <;> simp [ht, hm, hd, hagree]
        · simp [ht, hm, hd, hagree]
  · intro target m uid text apiOk ht
    simp [managerNumberInput, ht]
  · intro target m uid ht
    subst ht
    simp [cbPanelDriversSet]
  · intro target m uid v hv
    unfold cbPanelDriversSet
    by_cases ht : uid = target
    · subst ht
      simp [hv]
    · simp [ht]
  · intro target m uid ht
    simp [cbPanelDriversSet, ht]

/-- Claim C8, closed instance: dispatcher 42 in `setdrivers` mode; the digit
message `7` clears the mode, the message `abc` keeps it; user 9's entry is
untouched; non-dispatcher 9 is turned away. -/
theorem C8_manager_await_state_machine_witness :
    ((42 : Int) = 42 ∧
      ((fun v : Int => if v = 42 then some "setdrivers" else none) 42
        = some "setdrivers") ∧
      isDigits1to6 (pyStrip "7") = true ∧
      isDigits1to6 (pyStrip "abc") = false ∧ (9 : Int) ≠ 42) ∧
    ((managerNumberInput 42
        (fun v => if v = 42 then some "setdrivers" else none) 42 "7"
        true).1 42 = none ∧
      (managerNumberInput 42
        (fun v => if v = 42 then some "setdrivers" else none) 42 "7"
        true).2 = .setOk ((pyIntParse (pyStrip "7")).getD 0)) ∧
    managerNumberInput 42
        (fun v => if v = 42 then some "setdrivers" else none) 42 "abc" true
      = ((fun v => if v = 42 then some "setdrivers" else none),
         .repromptNumber) ∧
    (managerNumberInput 42
        (fun v => if v = 42 then some "setdrivers" else none) 42 "7"
        true).1 9 = (fun v : Int => if v = 42 then some "setdrivers" else none) 9 ∧
    managerNumberInput 42
        (fun v => if v = 42 then some "setdrivers" else none) 9 "7" true
      = ((fun v => if v = 42 then some "setdrivers" else none),
         .notDispatcher) :=
  ⟨⟨rfl, rfl, by decide, by decide, by decide⟩,
   C8_manager_await_state_machine.1 42 _ 42 "7" rfl rfl (by decide),
   C8_manager_await_state_machine.2.1 42 _ 42 "abc" true rfl rfl (by decide),
   C8_manager_await_state_machine.2.2.1 42 _ 42 "7" true 9 (by decide),
   C8_manager_await_state_machine.2.2.2.2.1 42 _ 9 "7" true (by decide)⟩


/-- Claim C7: the admin gate admits only the configured dispatcher: any
successful call returns the configured target id (the shared-token path
yields it directly); with no truthy init data and a non-matching token the
call fails 401; a failing init-data check (in particular a wrong HMAC or an
issuance timestamp older than 24 hours) propagates its 401 regardless of the
token; a verified blob carrying a different user id fails 403. -/
theorem C7_admin_gate_identity (calcHmac : String → String → String)
    (parseUser : String → Option Int) (cfg : ApiConfig)
    (xInit xToken : Option String) (now : Int) :
    (∀ uid, requireAdmin calcHmac parseUser cfg xInit xToken now = .ok uid →
      uid = cfg.targetUserId) ∧
    (pyTruthy xInit = false → tokenMatches cfg xToken = true →
      cfg.targetUserId ≠ 0 →
      requireAdmin calcHmac parseUser cfg xInit xToken now
        = .ok cfg.targetUserId) ∧
    (pyTruthy xInit = false → tokenMatches cfg xToken = false →
      requireAdmin calcHmac parseUser cfg xInit xToken now
        = .error (.http 401 "Unauthorized")) ∧
    (∀ e, pyTruthy xInit = true → pyTruthy cfg.botToken = true →
      tgWebappCheckInitData calcHmac parseUser (xInit.getD "")
          (cfg.botToken.getD "") now = .error e →
      requireAdmin calcHmac parseUser cfg xInit xToken now = .error e) ∧
    (∀ uid, pyTruthy xInit = true → pyTruthy cfg.botToken = true →
      tgWebappCheckInitData calcHmac parseUser (xInit.getD "")
          (cfg.botToken.getD "") now = .ok uid →
      uid ≠ cfg.targetUserId → cfg.targetUserId ≠ 0 →
      requireAdmin calcHmac parseUser cfg xInit xToken now
        = .error (.http 403 "Not an admin")) ∧
    (∀ (s bt h : String), (parseQs s).lookup "hash" = some h → h ≠ "" →
      calcHmac bt (dataCheckString (initDataFields s)) ≠ h →
      tgWebappCheckInitData calcHmac parseUser s bt now
        = .error (.http 401 "Bad initData hash")) ∧
    (∀ (s bt h : String) (a : Int),
      (parseQs s).lookup "hash" = some h → h ≠ "" →
      calcHmac bt (dataCheckString (initDataFields s)) = h →
      pyIntParse (initAuthDateRaw s) = some a → a ≠ 0 → now - a > 86400 →
      tgWebappCheckInitData calcHmac parseUser s bt now
        = .error (.http 401 "initData expired")) := by
  refine ⟨?_, ?_, ?_, ?_, ?_, ?_, ?_⟩
  · intro uid h
    unfold requireAdmin at h
    cases hxi : pyTruthy xInit with
    | false =>
      rw [hxi] at h
      simp only [Bool.false_eq_true, if_false] at h
      cases htk : tokenMatches cfg xToken with
      | false => rw [htk] at h; simp at h
      | true =>
        rw [htk] at h
        by_cases h0 : cfg.targetUserId = 0
        · simp [h0] at h
        · simp [h0] at h
          exact h.symm
    | true =>
      rw [hxi] at h
      simp only [if_true] at h
      cases hbt : pyTruthy cfg.botToken with
      | false => rw [hbt] at h; simp at h
      | true =>
        rw [hbt] at h
        simp only [Bool.not_true, Bool.false_eq_true, if_false] at h
        cases hchk : tgWebappCheckInitData calcHmac parseUser (xInit.getD "")
            (cfg.botToken.getD "") now with
        | error e => rw [hchk] at h; simp at h
        | ok u =>
          rw [hchk] at h
          by_cases h0 : cfg.targetUserId = 0
          · simp [h0] at h
          · by_cases hu : u ≠ cfg.targetUserId
            · simp [h0, hu] at h
            · push_neg at hu
              simp [h0, hu] at h
              rw [← h.symm]
  · intro hxi htk h0
    unfold requireAdmin
    simp [hxi, htk, h0]
  · intro hxi htk
    unfold requireAdmin
    simp [hxi, htk]
  · intro e hxi hbt hchk
    unfold requireAdmin
    simp [hxi, hbt, hchk]
  · intro uid hxi hbt hchk hu h0
    unfold requireAdmin
    simp [hxi, hbt, hchk, hu, h0]
  · intro s bt h hlook hne hcalc
    unfold tgWebappCheckInitData
    simp [hlook, hne, hcalc]
  · intro s bt h a hlook hne hcalc had ha0 hexp
    unfold tgWebappCheckInitData
    simp [hlook, hne, hcalc, had, ha0, hexp]


/-- Claim C7, closed instance: with a constant-digest HMAC stand-in, target
id 42 and shared token `tok`: the token path admits as 42; no credentials
fail 401; a verified blob for user 99 fails 403; a wrong digest fails the
hash check; a 1-second-epoch `auth_date` against clock 100000 is expired. -/
theorem C7_admin_gate_identity_witness :
    (pyTruthy (none : Option String) = false ∧
      tokenMatches apiCfg0 (some "tok") = true ∧
      apiCfg0.targetUserId ≠ 0 ∧
      tokenMatches apiCfg0 none = false ∧
      pyTruthy (some "hash=H&auth_date=99999&user=u") = true ∧
      pyTruthy apiCfg0.botToken = true ∧
      tgWebappCheckInitData hmac0 parseUser0 "hash=H&auth_date=99999&user=u"
        "B" 100000 = .ok 99 ∧
      (99 : Int) ≠ apiCfg0.targetUserId ∧
      (parseQs "hash=X&auth_date=99999&user=u").lookup "hash" = some "X" ∧
      hmac0 "B" (dataCheckString
        (initDataFields "hash=X&auth_date=99999&user=u")) ≠ "X" ∧
      (parseQs "hash=H&auth_date=1&user=u").lookup "hash" = some "H" ∧
      hmac0 "B" (dataCheckString
        (initDataFields "hash=H&auth_date=1&user=u")) = "H" ∧
      pyIntParse (initAuthDateRaw "hash=H&auth_date=1&user=u") = some 1 ∧
      (100000 : Int) - 1 > 86400) ∧
    requireAdmin hmac0 parseUser0 apiCfg0 none (some "tok") 100000
      = .ok apiCfg0.targetUserId ∧
    requireAdmin hmac0 parseUser0 apiCfg0 none none 100000
      = .error (.http 401 "Unauthorized") ∧
    requireAdmin hmac0 parseUser0 apiCfg0
        (some "hash=H&auth_date=99999&user=u") none 100000
      = .error (.http 403 "Not an admin") ∧
    tgWebappCheckInitData hmac0 parseUser0 "hash=X&auth_date=99999&user=u"
        "B" 100000 = .error (.http 401 "Bad initData hash") ∧
    tgWebappCheckInitData hmac0 parseUser0 "hash=H&auth_date=1&user=u" "B"
        100000 = .error (.http 401 "initData expired") :=
  ⟨⟨rfl, by decide, by decide, by decide, by decide, rfl, rfl, by decide,
    rfl, by decide, rfl, rfl, by decide, by decide⟩,
   (C7_admin_gate_identity hmac0 parseUser0 apiCfg0 none (some "tok")
       100000).2.1 rfl (by decide) (by decide),
   (C7_admin_gate_identity hmac0 parseUser0 apiCfg0 none none 100000).2.2.1
     rfl (by decide),
   (C7_admin_gate_identity hmac0 parseUser0 apiCfg0
       (some "hash=H&auth_date=99999&user=u") none 100000).2.2.2.2.1 99 rfl
     rfl rfl (by decide) (by decide),
   (C7_admin_gate_identity hmac0 parseUser0 apiCfg0 none none
       100000).2.2.2.2.2.1 "hash=X&auth_date=99999&user=u" "B" "X" rfl
     (by decide) (by decide),
   (C7_admin_gate_identity hmac0 parseUser0 apiCfg0 none none
       100000).2.2.2.2.2.2 "hash=H&auth_date=1&user=u" "B" "H" 1 rfl
     (by decide) rfl (by decide) (by decide) (by decide)⟩


/-- Claim C5, counterexample: `"5 5,3"` is not of the form
`<float>,<float>` (its first part, `"5 5"`, does not parse as a float), yet
the code produces a link, because it deletes every space before parsing —
the input is read as `"55,3"`. -/
theorem C5_map_link_counterexample :
    specGeoFloatFloatForm (some "5 5,3") = false ∧
    pyFloatParse "5 5" = none ∧
    yandexMapsLinkFromGeo (some "5 5,3")
      = some "https://yandex.ru/maps/?pt=3.0,55.0&z=16&l=map" := by
  refine ⟨by decide, by decide, by decide⟩

/-- Claim C5 (amended): the map-link derivation is a pure function of the
geo string which first deletes every space character; when the de-spaced
string splits at its first comma into two `float()`-parseable parts the link
carries exactly those two parsed numbers (longitude first); for every other
input — absent or empty string, no comma after space removal, or a part that
does not parse — no link is produced, and the dispatcher notification then
contains no map-link line at all. -/
theorem C5_map_link_characterization :
    (∀ (g : String) (lat lon : PyFloat), g ≠ "" →
      ',' ∈ removeSpaces g.data →
      pyFloatParseList (beforeComma (removeSpaces g.data)) = some lat →
      pyFloatParseList (afterComma (removeSpaces g.data)) = some lon →
      yandexMapsLinkFromGeo (some g) = some (mkYandexLink lon lat)) ∧
    yandexMapsLinkFromGeo none = none ∧
    (∀ g : String,
      g = "" ∨ ',' ∉ removeSpaces g.data ∨
        pyFloatParseList (beforeComma (removeSpaces g.data)) = none ∨
        pyFloatParseList (afterComma (removeSpaces g.data)) = none →
      yandexMapsLinkFromGeo (some g) = none) ∧
    (∀ (dtFmt : Option Int → String) (reqId : Int) (s : Sender)
        (data : Payload), yandexMapsLinkFromGeo data.geo = none →
      ∀ l ∈ notificationLines dtFmt reqId s data,
        hasPrefixCL "Яндекс.Карты:".data l.data = false) := by
  refine ⟨?_, rfl, ?_, ?_⟩
  · intro g lat lon hne hcomma hlat hlon
    unfold yandexMapsLinkFromGeo
    simp [hne, hlat, hlon, hcomma]
  · intro g h
    unfold yandexMapsLinkFromGeo
    by_cases hne : g = ""
    · simp [hne]
    · rcases h with h | h | h | h
      · exact absurd h hne
      · simp [hne]
        intro hmem
        exact absurd hmem h
      · simp [hne]
        intro _
        simp [h]
      · simp [hne]
        intro _
        cases hb : pyFloatParseList (beforeComma (removeSpaces g.data)) <;>
          simp [h, hb]
  · intro dtFmt reqId s data hlink l hl
    simp only [notificationLines, hlink, List.append_nil, List.mem_cons,
      List.not_mem_nil, or_false] at hl
    rcases hl with rfl | rfl | rfl | rfl | rfl | rfl | rfl | rfl | rfl <;> rfl

/-- Claim C5 (amended), closed instance: `"55.75, 37.61"` (with a space)
parses to 55.75 / 37.61 and yields the link carrying exactly those numbers;
`"abc"` yields no link; a payload without geo produces a notification with
no map-link line. -/
theorem C5_map_link_characterization_witness :
    (("55.75, 37.61" : String) ≠ "" ∧
      ',' ∈ removeSpaces ("55.75, 37.61" : String).data ∧
      pyFloatParseList (beforeComma
        (removeSpaces ("55.75, 37.61" : String).data))
        = some (.finite ⟨5575, 2⟩) ∧
      pyFloatParseList (afterComma
        (removeSpaces ("55.75, 37.61" : String).data))
        = some (.finite ⟨3761, 2⟩) ∧
      ',' ∉ removeSpaces ("abc" : String).data ∧
      yandexMapsLinkFromGeo (Payload.geo {}) = none) ∧
    yandexMapsLinkFromGeo (some "55.75, 37.61")
      = some (mkYandexLink (.finite ⟨3761, 2⟩) (.finite ⟨5575, 2⟩)) ∧
    yandexMapsLinkFromGeo (some "abc") = none ∧
    ∀ l ∈ notificationLines dtFmt0 1 sampleSender {},
      hasPrefixCL "Яндекс.Карты:".data l.data = false :=
  ⟨⟨by decide, by decide, by decide, by decide, by decide, rfl⟩,
   C5_map_link_characterization.1 "55.75, 37.61" (.finite ⟨5575, 2⟩)
     (.finite ⟨3761, 2⟩) (by decide) (by decide) (by decide) (by decide),
   C5_map_link_characterization.2.2.1 "abc" (Or.inr (Or.inl (by decide))),
   C5_map_link_characterization.2.2.2 dtFmt0 1 sampleSender {} rfl⟩

end TowBot
